import Mathlib

set_option maxHeartbeats 1000000

/-!
Verification development for the comgen repository (natural-language to
bash command generator).  The source ships several revisions of the same
program: a dynamic-buffer revision (called v1 below, `comgen 2.0`) and a
static-buffer revision (v2, the variant in `src/unnamed/part_002` and the
second half of `src/comgen.c`).  Functions are embedded over `List Char`
(C strings without the terminating NUL); stdin reads are `Option` values
(`none` models a failed `fgets`/`readline`, i.e. EOF).
-/

namespace Comgen

/-- The double-quote character, written via its code point. -/
def dquote : Char := Char.ofNat 34

/-- Gate outcome of `main`'s dispatch on the confirmation character:
`action == 'y'` executes, `action == 'e'` enters the edit flow, anything
else skips (both revisions of `main`). -/
inductive GateAction where
  | run
  | edit
  | skip
deriving DecidableEq

/-- `prompt_action` (identical in both revisions): a failed `fgets`
returns `'n'`; otherwise `buf[0]` equal to `'y'`, `'Y'` or `'\n'` gives
`'y'`, `'e'`/`'E'` gives `'e'`, and everything else gives `'n'`.  The
input is the raw line as read (newline included), `none` on EOF. -/
def prompt_action : Option (List Char) → Char
  | none => 'n'
  | some [] => 'n'
  | some (c :: _) =>
    if c = 'y' ∨ c = 'Y' ∨ c = '\n' then 'y'
    else if c = 'e' ∨ c = 'E' then 'e'
    else 'n'

/-- `main`'s dispatch on the character returned by `prompt_action`. -/
def gate_route (input : Option (List Char)) : GateAction :=
  if prompt_action input = 'y' then GateAction.run
  else if prompt_action input = 'e' then GateAction.edit
  else GateAction.skip

/-- `strcspn(edit_buf, "\n")` truncation: keep everything before the
first newline (v1 edit flow). -/
def strip_newline (l : List Char) : List Char :=
  l.takeWhile (fun c => c ≠ '\n')

/-- v1 edit flow (`src/comgen.c`, dynamic revision): a successful `fgets`
line has its newline stripped and is then executed unconditionally; the
result is the command handed to `execute_command`, `none` when nothing
is executed. -/
def edit_flow_v1 : Option (List Char) → Option (List Char)
  | none => none
  | some l => some (strip_newline l)

/-- v2 edit flow (`part_002` and the static revision): `readline` result
is executed only if non-NULL and non-empty; otherwise the turn ends with
nothing executed. -/
def edit_flow_v2 : Option (List Char) → Option (List Char)
  | none => none
  | some l => if l = [] then none else some l

/-- v1 `execute_command` report line: `Success` on exit status 0, else
`Exit: <status>`.  The status shown is the command's own exit status. -/
def execute_report (status : Nat) : List Char :=
  if status = 0 then ("Success").toList
  else ("Exit: ").toList ++ (toString status).toList

/-- The session loop never turns per-command exit statuses into its own
result: it reports each one and finally falls out of the loop with 0
(`return 0` at the end of `main` in every revision). -/
def session_loop_v1 (turnCodes : List Nat) : Nat × List (List Char) :=
  (0, turnCodes.map execute_report)

/-- Exit code of v1 `main`: `session_init` fails (missing
`ANTHROPIC_API_KEY` or failed `curl_easy_init`) gives exit 1 before the
loop; otherwise the loop runs and `main` returns 0. -/
def main_exit_v1 (apiKey : Option (List Char)) (curlOk : Bool)
    (turnCodes : List Nat) : Nat :=
  match apiKey with
  | none => 1
  | some _ => if curlOk then (session_loop_v1 turnCodes).1 else 1

/-- The response-schema text marker scanned for by `extract_content`:
the seven characters of `"text":`. -/
def markerL : List Char := dquote :: ("text").toList ++ [dquote, ':']

/-- The literal failure tag tested by `strncmp(cmd, "ERROR:", 6)`. -/
def errTag : List Char := ("ERROR:").toList

/-- `strstr` followed by skipping the pattern: the suffix just after the
first occurrence of `pat`, `none` when `pat` does not occur. -/
def afterFirstOccur (pat : List Char) : List Char → Option (List Char)
  | [] => if pat = [] then some [] else none
  | c :: rest =>
    if pat.isPrefixOf (c :: rest) then some ((c :: rest).drop pat.length)
    else afterFirstOccur pat rest

/-- `strchr(p, '"')` followed by `p++`: the suffix just after the first
double quote, `none` when there is none. -/
def afterFirstQuote : List Char → Option (List Char)
  | [] => none
  | c :: rest => if c = dquote then some rest else afterFirstQuote rest

/-- Translation of the character after a backslash, common to both
revisions: `n`, `t`, `r` become the control characters, anything else is
kept verbatim (this also un-escapes `\"` and `\\`). -/
def unescChar (d : Char) : Char :=
  if d = 'n' then '\n' else if d = 't' then '\t' else if d = 'r' then '\r' else d

/-- v2 string scan (`part_002` lines 169-184): loop while the current
character is not a closing quote and fewer than `MAX_CMD - 1 = 8191`
characters were written; a backslash with a following character consumes
both and emits the un-escaped character.  `i` is the output count so
far. -/
def scanV2 (i : Nat) : List Char → List Char
  | [] => []
  | c :: rest =>
    if 8191 ≤ i then []
    else if c = dquote then []
    else
      match rest with
      | d :: rest2 =>
        if c = '\\' then unescChar d :: scanV2 (i + 1) rest2
        else c :: scanV2 (i + 1) (d :: rest2)
      | [] => [c]

/-- v1 string scan (`src/comgen.c` lines 247-268): stops at a quote whose
*previous source character* is not a backslash (`*(p-1) != '\\'`), where
`prev` is that previous character (initially the opening quote). -/
def scanV1 (prev : Char) : List Char → List Char
  | [] => []
  | c :: rest =>
    if c = dquote ∧ prev ≠ '\\' then []
    else if c = '\\' then
      match rest with
      | [] => []
      | d :: rest2 => unescChar d :: scanV1 d rest2
    else c :: scanV1 c rest

/-- v2 `extract_content`: find the `"text":` marker, then the quote that
follows it, then scan the quoted string. -/
def extract_content (json : List Char) : Option (List Char) :=
  match afterFirstOccur markerL json with
  | none => none
  | some tail =>
    match afterFirstQuote tail with
    | none => none
    | some body => some (scanV2 0 body)

/-- v1 `extract_content`: same marker/quote search, then the v1 scan with
the opening quote as the initial previous character. -/
def extract_content_v1 (json : List Char) : Option (List Char) :=
  match afterFirstOccur markerL json with
  | none => none
  | some tail =>
    match afterFirstQuote tail with
    | none => none
    | some body => some (scanV1 dquote body)

/-- `json_escape` (dynamic revision, `src/comgen.c` lines 208-231): quote
and backslash get a backslash prepended; newline, carriage return and tab
become the two-character sequences; everything else passes through. -/
def json_escape : List Char → List Char
  | [] => []
  | c :: rest =>
    if c = dquote ∨ c = '\\' then '\\' :: c :: json_escape rest
    else if c = '\n' then '\\' :: 'n' :: json_escape rest
    else if c = '\r' then '\\' :: 'r' :: json_escape rest
    else if c = '\t' then '\\' :: 't' :: json_escape rest
    else c :: json_escape rest

/-- The spec's `Outcome` classification of a response body. -/
inductive Outcome where
  | Command : List Char → Outcome
  | ModelError : List Char → Outcome
  | Unparseable : Outcome
deriving DecidableEq

/-- `main`'s classification of a turn (both revisions, `part_002` lines
325-335): a `NULL` extraction reports a failure and re-prompts
(`Unparseable`); a text beginning with the 6-byte tag `ERROR:` is the
model-declared failure branch, carrying the reason after the tag;
anything else becomes the candidate command. -/
def interpret (body : List Char) : Outcome :=
  match extract_content body with
  | none => Outcome.Unparseable
  | some t =>
    if errTag.isPrefixOf t then Outcome.ModelError (t.drop 6)
    else Outcome.Command t

/-- Whether the turn reaches `prompt_action` (the Execution Gate): only
the non-`NULL`, non-`ERROR:` branch of `main` calls it. -/
def gate_invoked (body : List Char) : Bool :=
  match extract_content body with
  | none => false
  | some t => !(errTag.isPrefixOf t)

/-- What `main` prints on the `ERROR:` branch: the extracted text,
verbatim (`printf("%s", cmd)`); `none` on the other branches. -/
def shown_on_error (body : List Char) : Option (List Char) :=
  match extract_content body with
  | none => none
  | some t => if errTag.isPrefixOf t then some t else none

/-- Response body embedding a single backslash as its text value, the
input on which the v1 scan misbehaves: the JSON is
`{"content":[{"text":"\\"}]}` (text value = escaped form of `\`). -/
def c3_body : List Char :=
  ("\x7b\"content\":[\x7b\"text\":\"").toList ++ json_escape ['\\'] ++
    ("\"\x7d]\x7d").toList

/-- End-to-end scenario 2 body: `{"content":[{"text":"ERROR: ambiguous request"}]}`. -/
def c1_body : List Char :=
  ("\x7b\"content\":[\x7b\"text\":\"ERROR: ambiguous request\"\x7d]\x7d").toList

/-- `EnvContext` of the v2 revision (`part_002` lines 35-42), minus the
fixed-size array bounds, which only matter inside `gather_context`. -/
structure Env2 where
  os : List Char
  shell : List Char
  user : List Char
  hostname : List Char
  home : List Char
  cwd : List Char

/-- `MAX_SYSTEM_PROMPT` (`part_002` line 15): size of the static
`system_prompt` buffer; `snprintf` writes at most this minus one. -/
def MAX_SYSTEM_PROMPT : Nat := 65536

/-- Instruction preamble of the v2 system prompt up to the first `%s`. -/
def sp_preamble : List Char :=
  ("You are a command-line assistant. Convert natural language to a single bash command. Output ONLY the command, no explanations or markdown. If impossible, respond with: ERROR: reason\n\nEnvironment:\n- OS: ").toList

/-- The formatted environment block of the v2 system prompt: the fixed
preamble and separators with the context fields spliced in. -/
def env_block (e : Env2) : List Char :=
  sp_preamble ++ e.os ++ ("\n- Shell: ").toList ++ e.shell ++
    ("\n- User: ").toList ++ e.user ++ ("\n- Hostname: ").toList ++ e.hostname ++
    ("\n- Home: ").toList ++ e.home ++ ("\n- CWD: ").toList ++ e.cwd

/-- v2 `build_system_prompt` (`part_002` lines 84-105): a first
`snprintf` formats the environment block into the 65536-byte buffer
(truncating to 65535 characters), and when a directory listing is
present a second `snprintf` appends the files header plus the listing
into the space that remains. -/
def build_system_prompt_v2 (e : Env2) (ls : List Char) : List Char :=
  if ls = [] then (env_block e).take (MAX_SYSTEM_PROMPT - 1)
  else
    (env_block e).take (MAX_SYSTEM_PROMPT - 1) ++
      (("\n\nFiles in current directory:\n").toList ++ ls).take
        (MAX_SYSTEM_PROMPT - 1 - ((env_block e).take (MAX_SYSTEM_PROMPT - 1)).length)

/-- Comma-joining of the captured listing lines: the first chunk is
appended bare, each later chunk is preceded by a comma (v1
`capture_ls_output`). -/
def joinCommaSep : List (List Char) → List Char
  | [] => []
  | [l] => l
  | l :: m :: rest => l ++ ',' :: joinCommaSep (m :: rest)

/-- v1 `capture_ls_output` (`src/comgen.c` lines 157-205) on the
newline-stripped `fgets` chunks of the `ls -1A` output: at most 50
chunks are kept, and when the 50-chunk ceiling is hit the visible
truncation marker `,...` is appended. -/
def capture_ls_v1 (lines : List (List Char)) : List Char :=
  joinCommaSep (lines.take 50) ++
    (if 50 ≤ lines.length then (",...").toList else [])

/-- v1 `write_cb` (`src/comgen.c` lines 292-300): every chunk is
appended to the dynamic `StringBuffer` with no ceiling. -/
def write_cb_v1 (buf chunk : List Char) : List Char := buf ++ chunk

/-- Response accumulated by the v1 callback over a chunk sequence. -/
def accumulate_v1 (chunks : List (List Char)) : List Char :=
  chunks.foldl write_cb_v1 []

/-- v2 `write_cb` (`part_002` lines 122-131): a chunk is copied into the
static buffer only while `response_len + len < MAX_RESPONSE - 1`
(65535); otherwise it is dropped whole.  The callback still returns
`len`, so the transfer continues without error either way. -/
def write_cb_v2 (buf chunk : List Char) : List Char :=
  if buf.length + chunk.length < 65535 then buf ++ chunk else buf

/-- Response accumulated by the v2 callback over a chunk sequence. -/
def accumulate_v2 (chunks : List (List Char)) : List Char :=
  chunks.foldl write_cb_v2 []

/-- Session-loop classification of an input line (`part_002` lines
291-311): blank lines re-prompt; `/q`, `/quit`, `/h`, `/help`, `/ls` are
internal commands matched exactly; everything else is a model turn. -/
inductive LineAction where
  | quit
  | help
  | refreshLs
  | blank
  | modelTurn
deriving DecidableEq

/-- The dispatch order of the v2 session loop. -/
def dispatch (line : List Char) : LineAction :=
  if line = [] then LineAction.blank
  else if line = ("/q").toList ∨ line = ("/quit").toList then LineAction.quit
  else if line = ("/h").toList ∨ line = ("/help").toList then LineAction.help
  else if line = ("/ls").toList then LineAction.refreshLs
  else LineAction.modelTurn

/-- The per-turn `getcwd(env_ctx.cwd, ...)` refresh: only the `cwd`
field changes. -/
def refresh_cwd (e : Env2) (c : List Char) : Env2 :=
  Env2.mk e.os e.shell e.user e.hostname e.home c

/-- System prompt of the request sent for an input line (`part_002`
lines 313-322): a model turn first refreshes `cwd` and rebuilds the
system prompt, then `generate_command` embeds that prompt; any other
line sends no request.  `currentCwd` is what `getcwd` reads this turn. -/
def turn_request_system (e : Env2) (ls : List Char) (currentCwd : List Char)
    (line : List Char) : Option (List Char) :=
  match dispatch line with
  | LineAction.modelTurn =>
    some (build_system_prompt_v2 (refresh_cwd e currentCwd) ls)
  | _ => none

/-- A concrete environment used by witnesses. -/
def c8_env : Env2 :=
  Env2.mk (("Linux 6.1").toList) (("/bin/bash").toList) (("sido").toList)
    (("host").toList) (("/home/sido").toList) (("/home/sido").toList)

end Comgen

namespace Comgen

/-- Occurrence search succeeds exactly when the pattern is an infix. -/
theorem afterFirstOccur_isSome_iff (pat : List Char) :
    ∀ s : List Char, (afterFirstOccur pat s).isSome = true ↔ pat <:+: s := by
  intro s
  induction s with
  | nil =>
    by_cases h : pat = []
    · simp [afterFirstOccur, h]
    · simp [afterFirstOccur, h]
  | cons c rest ih =>
    by_cases h : pat.isPrefixOf (c :: rest)
    · simp [afterFirstOccur, h]
      exact (List.isPrefixOf_iff_prefix.mp h).isInfix
    · simp only [afterFirstOccur, h, if_false, Bool.false_eq_true]
      rw [ih, List.infix_cons_iff]
      constructor
      · exact Or.inr
      · rintro (hp | hi)
        · exact absurd (List.isPrefixOf_iff_prefix.mpr hp) (by simpa using h)
        · exact hi

/-- Claim C10: if standard input reaches EOF at the confirmation prompt
(`fgets` fails), `prompt_action` returns `'n'` and the gate resolves to
Skip, never Run. -/
theorem claim_C10_eof_skips :
    prompt_action none = 'n' ∧ gate_route none = GateAction.skip := by
  constructor
  · rfl
  · decide

/-- Claim C2 counterexample: the claim says unrecognized garbage followed
by a newline routes to Run, but the line `x\n` routes to Skip. -/
theorem claim_C2_counterexample :
    gate_route (some ['x', '\n']) = GateAction.skip ∧
    GateAction.skip ≠ GateAction.run := by
  constructor
  · decide
  · decide

/-- Claim C2 (amended): a line whose first character is `y`, `Y` or a
newline (a blank line) routes to Run; a first character `e`/`E` routes to
Edit; every other line — `n`, any other single character, and
unrecognized garbage — routes to Skip, as does EOF. -/
theorem claim_C2_amended_routing :
    ∀ (c : Char) (rest : List Char),
      gate_route none = GateAction.skip ∧
      gate_route (some ('\n' :: rest)) = GateAction.run ∧
      gate_route (some ('y' :: rest)) = GateAction.run ∧
      gate_route (some ('e' :: rest)) = GateAction.edit ∧
      gate_route (some ('n' :: rest)) = GateAction.skip ∧
      gate_route (some ('x' :: rest)) = GateAction.skip ∧
      gate_route (some (c :: rest)) =
        (if c = 'y' ∨ c = 'Y' ∨ c = '\n' then GateAction.run
         else if c = 'e' ∨ c = 'E' then GateAction.edit
         else GateAction.skip) := by
  intro c rest
  refine ⟨by decide, by simp [gate_route, prompt_action],
    by simp [gate_route, prompt_action], by simp [gate_route, prompt_action],
    by simp [gate_route, prompt_action], by simp [gate_route, prompt_action], ?_⟩
  by_cases h1 : c = 'y' ∨ c = 'Y' ∨ c = '\n'
  · simp [gate_route, prompt_action, h1]
  · by_cases h2 : c = 'e' ∨ c = 'E'
    · simp [gate_route, prompt_action, h1, h2]
    · simp [gate_route, prompt_action, h1, h2]

/-- Claim C7 (evaluation at the failing input): in the v2 edit flow an
empty or absent edit line executes nothing and a non-empty edit line
replaces the command entirely, but in the v1 edit flow a blank edit line
(bare newline) is stripped to the empty string and still handed to
`execute_command` — the turn is not skipped. -/
theorem claim_C7_empty_edit :
    edit_flow_v2 (some []) = none ∧
    edit_flow_v2 none = none ∧
    edit_flow_v2 (some (("ls -la").toList)) = some (("ls -la").toList) ∧
    edit_flow_v1 (some ['\n']) = some [] ∧
    edit_flow_v1 (some ['\n']) ≠ none := by
  refine ⟨rfl, rfl, ?_, ?_, ?_⟩
  · decide
  · decide
  · decide

/-- Claim C9: the process exits 1 when the credential is missing or the
transport handle cannot be initialized at startup, exits 0 on a normal
quit regardless of the per-turn command exit statuses, and each per-turn
status is only reported to the user (`Success` / `Exit: n`). -/
theorem claim_C9_exit_codes :
    ∀ (key : List Char) (ok : Bool) (codes : List Nat) (c : Nat),
      main_exit_v1 none ok codes = 1 ∧
      main_exit_v1 (some key) false codes = 1 ∧
      main_exit_v1 (some key) true codes = 0 ∧
      (session_loop_v1 codes).1 = 0 ∧
      (session_loop_v1 codes).2 = codes.map execute_report ∧
      execute_report 0 = ("Success").toList ∧
      execute_report (c + 1) = ("Exit: ").toList ++ (toString (c + 1)).toList := by
  intro key ok codes c
  refine ⟨rfl, by simp [main_exit_v1], rfl, rfl, rfl, by simp [execute_report], ?_⟩
  simp [execute_report]

/-- Claim C1: whenever the extracted text of a response body begins with
the literal tag `ERROR:`, `main` takes the model-error branch — the
classified outcome is `ModelError` carrying the text after the tag, the
printed message is the tag followed by that reason (so the reason is
shown), and `prompt_action` (the Execution Gate) is never invoked. -/
theorem claim_C1_model_error (body t : List Char)
    (h1 : extract_content body = some t)
    (h2 : errTag.isPrefixOf t = true) :
    interpret body = Outcome.ModelError (t.drop 6) ∧
    t = errTag ++ t.drop 6 ∧
    shown_on_error body = some (errTag ++ t.drop 6) ∧
    gate_invoked body = false := by
  have hp : errTag <+: t := List.isPrefixOf_iff_prefix.mp h2
  have hlen : errTag.length = 6 := by decide
  have he : errTag ++ t.drop 6 = t := by
    have h3 := List.prefix_iff_eq_append.mp hp
    rwa [hlen] at h3
  refine ⟨?_, he.symm, ?_, ?_⟩
  · simp [interpret, h1, h2]
  · simp [shown_on_error, h1, h2, he]
  · simp [gate_invoked, h1, h2]

/-- Claim C1 witness: end-to-end scenario 2. -/
theorem claim_C1_witness :
    interpret c1_body = Outcome.ModelError ((" ambiguous request").toList) ∧
    shown_on_error c1_body = some (("ERROR: ambiguous request").toList) ∧
    gate_invoked c1_body = false := by
  have h := claim_C1_model_error c1_body (("ERROR: ambiguous request").toList)
    (by decide) (by decide)
  refine ⟨?_, ?_, h.2.2.2⟩
  · rw [h.1]
    decide
  · rw [h.2.2.1]
    decide

/-- Claim C3 (evaluation at the failing input): for `s` a single
backslash, the v1 scan fails the round-trip law — after consuming the
escape pair `\\` the character before the closing quote is a backslash,
so `*(p-1) != '\\'` misreads the closing quote as escaped and the scan
runs on into the trailing JSON, returning `\"}]}` instead of `\`.  The
v2 scan round-trips the same body correctly. -/
theorem claim_C3_backslash_eval :
    extract_content_v1 c3_body =
      some ['\\', dquote, '\x7d', ']', '\x7d'] ∧
    extract_content_v1 c3_body ≠ some ['\\'] ∧
    extract_content c3_body = some ['\\'] := by
  refine ⟨by decide, by decide, by decide⟩

/-- Claim C4: a response body that does not contain the text-content
marker `"text":` is classified `Unparseable` (both revisions return
`NULL` from `extract_content`), and the Execution Gate is never
invoked. -/
theorem claim_C4_unparseable (body : List Char)
    (h : ¬ markerL <:+: body) :
    interpret body = Outcome.Unparseable ∧
    gate_invoked body = false ∧
    extract_content body = none ∧
    extract_content_v1 body = none := by
  have h0 : afterFirstOccur markerL body = none := by
    cases hcase : afterFirstOccur markerL body with
    | none => rfl
    | some t =>
      have : (afterFirstOccur markerL body).isSome = true := by simp [hcase]
      exact absurd ((afterFirstOccur_isSome_iff markerL body).mp this) h
  refine ⟨?_, ?_, ?_, ?_⟩
  · simp [interpret, extract_content, h0]
  · simp [gate_invoked, extract_content, h0]
  · simp [extract_content, h0]
  · simp [extract_content_v1, h0]

/-- Claim C4 witness: the body `hello` has no `"text":` marker. -/
theorem claim_C4_witness :
    interpret (("hello").toList) = Outcome.Unparseable ∧
    gate_invoked (("hello").toList) = false := by
  have h : ¬ markerL <:+: ("hello").toList := by
    intro hin
    have := (afterFirstOccur_isSome_iff markerL (("hello").toList)).mpr hin
    rw [show afterFirstOccur markerL (("hello").toList) = none from by decide] at this
    simp at this
  have hc := claim_C4_unparseable (("hello").toList) h
  exact ⟨hc.1, hc.2.1⟩

/-- Joined listing length: with every chunk at most 1023 characters
(the `fgets` buffer holds 1024 including the NUL), the comma-joined list
has at most 1024 characters per chunk. -/
theorem joinCommaSep_length :
    ∀ lines : List (List Char), (∀ l ∈ lines, l.length ≤ 1023) →
      (joinCommaSep lines).length ≤ 1024 * lines.length := by
  intro lines
  induction lines with
  | nil => intro _; simp [joinCommaSep]
  | cons l rest ih =>
    intro h
    cases rest with
    | nil =>
      have := h l (by simp)
      simp only [joinCommaSep, List.length_cons]
      omega
    | cons m rest2 =>
      have hl := h l (by simp)
      have ih2 := ih (fun x hx => h x (by simp [hx]))
      simp only [joinCommaSep, List.length_append, List.length_cons] at ih2 ⊢
      omega

/-- The v2 system prompt never exceeds 65535 characters, whatever the
environment fields and listing are: both `snprintf` calls truncate. -/
theorem build_system_prompt_v2_len (e : Env2) (ls : List Char) :
    (build_system_prompt_v2 e ls).length ≤ 65535 := by
  unfold build_system_prompt_v2
  by_cases h : ls = []
  · rw [if_pos h]
    simp only [List.length_take, MAX_SYSTEM_PROMPT]
    omega
  · rw [if_neg h]
    simp only [List.length_append, List.length_take, MAX_SYSTEM_PROMPT]
    omega

/-- v2 buffer invariant: starting under the 65535 bound, folding the
callback over any chunks stays under the bound. -/
theorem accumulate_v2_bound_aux :
    ∀ (chunks : List (List Char)) (buf : List Char),
      buf.length < 65535 → (chunks.foldl write_cb_v2 buf).length < 65535 := by
  intro chunks
  induction chunks with
  | nil => intro buf h; simpa using h
  | cons c rest ih =>
    intro buf h
    simp only [List.foldl_cons]
    apply ih
    unfold write_cb_v2
    split
    · rename_i hcond
      simp only [List.length_append]
      omega
    · exact h

/-- Claim C5: the v2 system prompt length never exceeds its configured
maximum (65535 content bytes of the 65536-byte buffer) regardless of
listing size, and the v1 listing capture truncates an oversized listing
(50 or more chunks) with the visible marker `,...` — and is itself
bounded. -/
theorem claim_C5_prompt_bounded (e : Env2) (ls : List Char)
    (lines : List (List Char))
    (hlen : ∀ l ∈ lines, l.length ≤ 1023) (h50 : 50 ≤ lines.length) :
    (build_system_prompt_v2 e ls).length ≤ 65535 ∧
    (",...").toList <:+ capture_ls_v1 lines ∧
    (capture_ls_v1 lines).length ≤ 51204 := by
  refine ⟨build_system_prompt_v2_len e ls, ?_, ?_⟩
  · unfold capture_ls_v1
    rw [if_pos h50]
    exact List.suffix_append _ _
  · unfold capture_ls_v1
    have hj := joinCommaSep_length (lines.take 50)
      (fun l hl => hlen l (List.mem_of_mem_take hl))
    have ht : (lines.take 50).length ≤ 50 := List.length_take_le _ _
    have hm : 1024 * (lines.take 50).length ≤ 1024 * 50 :=
      Nat.mul_le_mul_left 1024 ht
    rw [if_pos h50, List.length_append]
    have hmark : ((",...").toList).length = 4 := by decide
    omega

/-- Claim C5 witness: a 50-entry listing. -/
theorem claim_C5_witness :
    (build_system_prompt_v2 c8_env (("README.md").toList)).length ≤ 65535 ∧
    (",...").toList <:+ capture_ls_v1 (List.replicate 50 (("README.md").toList)) := by
  have h := claim_C5_prompt_bounded c8_env (("README.md").toList)
    (List.replicate 50 (("README.md").toList))
    (by decide) (by decide)
  exact ⟨h.1, h.2.1⟩

/-- Claim C6 (evaluation at the failing input, plus the v2 invariant):
the v2 callback keeps the accumulated response under the hard 65535
bound for every chunk sequence, but the v1 callback has no ceiling — a
single 70000-byte chunk grows its buffer to 70000 bytes, past any
configured bound. -/
theorem claim_C6_bounded_buffer :
    (∀ chunks : List (List Char), (accumulate_v2 chunks).length < 65535) ∧
    (accumulate_v1 [List.replicate 70000 'a']).length = 70000 ∧
    (accumulate_v2 [List.replicate 70000 'a']).length = 0 ∧
    65535 < 70000 := by
  refine ⟨fun chunks => accumulate_v2_bound_aux chunks [] (by norm_num), ?_, ?_, by norm_num⟩
  · unfold accumulate_v1
    rw [List.foldl_cons, List.foldl_nil]
    unfold write_cb_v1
    rw [List.nil_append, List.length_replicate]
  · unfold accumulate_v2
    rw [List.foldl_cons, List.foldl_nil]
    unfold write_cb_v2
    have hc : ¬ (List.length ([] : List Char) + (List.replicate 70000 'a').length < 65535) := by
      rw [List.length_replicate]
      simp
    rw [if_neg hc]
    rfl

/-- Claim C8: every input line that is neither blank nor one of the
internal commands is dispatched as a model turn, and the system prompt
embedded in that turn's request is built from the environment whose
`cwd` field was refreshed to the directory read this turn. -/
theorem claim_C8_cwd_refresh (e : Env2) (ls currentCwd line : List Char)
    (hq : line ≠ [])
    (h1 : line ≠ ("/q").toList) (h2 : line ≠ ("/quit").toList)
    (h3 : line ≠ ("/h").toList) (h4 : line ≠ ("/help").toList)
    (h5 : line ≠ ("/ls").toList) :
    dispatch line = LineAction.modelTurn ∧
    turn_request_system e ls currentCwd line =
      some (build_system_prompt_v2 (refresh_cwd e currentCwd) ls) ∧
    (refresh_cwd e currentCwd).cwd = currentCwd := by
  have hd : dispatch line = LineAction.modelTurn := by
    unfold dispatch
    rw [if_neg hq, if_neg (by rintro (h | h); exacts [h1 h, h2 h]),
      if_neg (by rintro (h | h); exacts [h3 h, h4 h]), if_neg h5]
  exact ⟨hd, by simp [turn_request_system, hd], rfl⟩

/-- Claim C8 witness: end-to-end scenario 1's input line. -/
theorem claim_C8_witness :
    turn_request_system c8_env [] (("/tmp").toList)
        (("list all pdfs sorted by size").toList) =
      some (build_system_prompt_v2 (refresh_cwd c8_env (("/tmp").toList)) []) := by
  exact (claim_C8_cwd_refresh c8_env [] (("/tmp").toList)
    (("list all pdfs sorted by size").toList)
    (by decide) (by decide) (by decide) (by decide) (by decide) (by decide)).2.1

end Comgen
